import Mathlib

/-
Shallow embedding of the govje_weather Home Assistant integration
(src/custom_components/govje_weather) in Lean 4.

Modelling conventions:
  - Python dictionaries are association lists over a JSON value type
    (first binding wins, keys are unique in all inputs considered);
  - Python exceptions are an explicit error type inside Except;
  - Python floats are exact rationals (every numeric literal relevant
    to the claims is exactly representable, so no rounding is modelled);
  - reads of the wall clock (datetime.now()) become explicit parameters;
  - string helpers (str.replace, int(), float(), re.match with the one
    pattern used, strptime with the one format used) are modelled over
    ASCII character lists, which covers every input the claims mention.
-/

/-- JSON-ish values stored in the fetched document and in day records. -/
inductive JVal where
  | jnull : JVal
  | jstr : String → JVal
  | jint : Int → JVal
  | jarr : List JVal → JVal
  | jobj : List (String × JVal) → JVal

/-- Python exception classes that the embedded code can raise. -/
inductive PyErr where
  | valueError
  | typeError
  | attributeError
  | indexError
  | keyError
  | clientError
  | jsonDecodeError
  | updateFailedExc
deriving DecidableEq, Repr

/-- Python truthiness for the modelled value domain. -/
def pyTruthy : JVal → Bool
  | .jnull => false
  | .jstr s => !(s == "")
  | .jint n => !(n == 0)
  | .jarr xs => !xs.isEmpty
  | .jobj kvs => !kvs.isEmpty

/-- Python dict type used for day records and the fetched document. -/
abbrev PyDict := List (String × JVal)

/-- dict.get(key): first binding wins, absent key gives none. -/
def pyGet (d : PyDict) (k : String) : Option JVal :=
  (d.find? (fun p => p.1 == k)).map (fun p => p.2)

/-- A Gregorian calendar date, as carried by Python datetime. -/
structure Date where
  year : Nat
  month : Nat
  day : Nat
deriving DecidableEq, Repr

/-- Gregorian leap-year rule used by Python datetime. -/
def isLeap (y : Nat) : Prop := (y % 4 = 0 ∧ y % 100 ≠ 0) ∨ y % 400 = 0

instance (y : Nat) : Decidable (isLeap y) := by
  unfold isLeap; infer_instance

/-- Length of a month in the proleptic Gregorian calendar. -/
def daysInMonth (y m : Nat) : Nat :=
  if m = 2 then (if isLeap y then 29 else 28)
  else if m = 4 ∨ m = 6 ∨ m = 9 ∨ m = 11 then 30
  else 31

/-- The dates accepted by the Python datetime constructor. -/
def validDate (d : Date) : Prop :=
  1 ≤ d.year ∧ d.year ≤ 9999 ∧ 1 ≤ d.month ∧ d.month ≤ 12 ∧
    1 ≤ d.day ∧ d.day ≤ daysInMonth d.year d.month

instance (d : Date) : Decidable (validDate d) := by
  unfold validDate; infer_instance

/-- now + timedelta(days=1). -/
def nextDay (d : Date) : Date :=
  if d.day < daysInMonth d.year d.month then ⟨d.year, d.month, d.day + 1⟩
  else if d.month < 12 then ⟨d.year, d.month + 1, 1⟩
  else ⟨d.year + 1, 1, 1⟩

/-- Zero-padded decimal rendering, as strftime emits for %Y, %m, %d. -/
def padNum (len : Nat) (n : Nat) : String :=
  let s := toString n
  String.mk (List.replicate (len - s.length) '0') ++ s

/-- strftime("%Y-%m-%dT12:00:00") on a date. -/
def isoNoon (d : Date) : String :=
  padNum 4 d.year ++ "-" ++ padNum 2 d.month ++ "-" ++ padNum 2 d.day ++ "T12:00:00"

/-- _get_time_of_day from weather.py, with the clock hour made explicit. -/
def _get_time_of_day (current_hour : Nat) : String :=
  if 5 ≤ current_hour ∧ current_hour < 12 then "Morning"
  else if 12 ≤ current_hour ∧ current_hour < 18 then "Afternoon"
  else "Evening"

/-- The inline time-of-day selection used by every per-period sensor in
sensor.py: hour >= 18 picks Evening, else hour >= 12 picks Afternoon,
else Morning (Python and/or chain with truthy string operands). -/
def sensorPeriod (hour : Nat) : String :=
  if hour ≥ 18 then "Evening" else if hour ≥ 12 then "Afternoon" else "Morning"

/-- MIN_SCAN_INTERVAL from const.py. -/
def MIN_SCAN_INTERVAL : Int := 5

/-- MAX_SCAN_INTERVAL from const.py. -/
def MAX_SCAN_INTERVAL : Int := 1440

/-- Result of one step of the options flow in config_flow.py. -/
inductive FlowResult where
  | showForm : String → List (String × String) → FlowResult
  | createEntry : String → List (String × Int) → FlowResult
deriving DecidableEq, Repr

/-- OptionsFlowHandler.async_step_init from config_flow.py, on a submitted
scan_interval value (the only key of user_input). -/
def async_step_init (scan_interval : Int) : FlowResult :=
  if scan_interval < MIN_SCAN_INTERVAL then
    .showForm "init"
      [("scan_interval", "Value must be at least " ++ toString MIN_SCAN_INTERVAL)]
  else if scan_interval > MAX_SCAN_INTERVAL then
    .showForm "init"
      [("scan_interval", "Value must be at most " ++ toString MAX_SCAN_INTERVAL)]
  else
    .createEntry "" [("scan_interval", scan_interval)]

/-- Whitespace characters stripped by Python int() and float(). -/
def isPyWs (c : Char) : Bool :=
  c = ' ' ∨ c = '\t' ∨ c = '\n' ∨ c = '\r' ∨ c = '\x0b' ∨ c = '\x0c'

/-- Strip leading and trailing whitespace from a character list. -/
def stripChars (cs : List Char) : List Char :=
  ((cs.dropWhile isPyWs).reverse.dropWhile isPyWs).reverse

/-- Decimal value of a digit list. -/
def digitsVal (ds : List Char) : Nat :=
  ds.foldl (fun acc c => 10 * acc + (c.toNat - '0'.toNat)) 0

/-- Lex a maximal run of decimal digits that may contain single
underscores between digits (Python numeric-literal grouping), returning
the digits collected and the unconsumed rest. Assumes the head is a
digit; a misplaced underscore ends the run before itself. -/
def lexDigitsUAux : List Char → (List Char × List Char)
  | '_' :: c :: cs =>
    if c.isDigit then
      let r := lexDigitsUAux cs
      (c :: r.1, r.2)
    else ([], '_' :: c :: cs)
  | c :: cs =>
    if c.isDigit then
      let r := lexDigitsUAux cs
      (c :: r.1, r.2)
    else ([], c :: cs)
  | [] => ([], [])

/-- Lex a grouped digit run; fails unless the first character is a digit. -/
def lexDigitsU (cs : List Char) : Option (List Char × List Char) :=
  match cs with
  | c :: _ => if c.isDigit then some (lexDigitsUAux cs) else none
  | [] => none

/-- A grouped digit run that must consume the whole input. -/
def intDigitsAll (cs : List Char) : Option Nat :=
  match lexDigitsU cs with
  | some (ds, []) => some (digitsVal ds)
  | _ => none

/-- Python int(s) on a string: optional surrounding whitespace, optional
sign, grouped decimal digits; none models ValueError. ASCII digits only,
which covers every input relevant to the claims. -/
def pyIntOfString? (s : String) : Option Int :=
  match stripChars s.data with
  | '+' :: rest => (intDigitsAll rest).map (fun n => (n : Int))
  | '-' :: rest => (intDigitsAll rest).map (fun n => -(n : Int))
  | rest => (intDigitsAll rest).map (fun n => (n : Int))

/-- Fractional part value of a digit list, as an exact rational. -/
def fracVal (fds : List Char) : ℚ :=
  (digitsVal fds : ℚ) / ((10 : ℚ) ^ fds.length)

/-- Exponent tail of a Python float literal, applied to the mantissa. -/
def expoTail (base : ℚ) (r : List Char) : Option ℚ :=
  match r with
  | '+' :: r2 => (intDigitsAll r2).map (fun n => base * (10 : ℚ) ^ n)
  | '-' :: r2 => (intDigitsAll r2).map (fun n => base / (10 : ℚ) ^ n)
  | r2 => (intDigitsAll r2).map (fun n => base * (10 : ℚ) ^ n)

/-- Optional exponent part following the mantissa of a float literal. -/
def withExpo (mant : ℚ) (rest : List Char) : Option ℚ :=
  match rest with
  | [] => some mant
  | 'e' :: r => expoTail mant r
  | 'E' :: r => expoTail mant r
  | _ => none

/-- Mantissa (and exponent) of a Python float literal after the sign. -/
def floatBody (cs : List Char) : Option ℚ :=
  match cs with
  | '.' :: rest =>
    match lexDigitsU rest with
    | some (fds, r2) => withExpo (fracVal fds) r2
    | none => none
  | _ =>
    match lexDigitsU cs with
    | some (ids, r1) =>
      match r1 with
      | '.' :: r2 =>
        match lexDigitsU r2 with
        | some (fds, r3) => withExpo ((digitsVal ids : ℚ) + fracVal fds) r3
        | none => withExpo (digitsVal ids : ℚ) r2
      | _ => withExpo (digitsVal ids : ℚ) r1
    | none => none

/-- Python float(s) on a string: optional surrounding whitespace,
optional sign, decimal mantissa with optional fraction and exponent;
none models ValueError. Values are exact rationals; the special tokens
inf and nan, which never occur in this data source, are not modelled. -/
def pyFloat? (s : String) : Option ℚ :=
  match stripChars s.data with
  | '+' :: rest => floatBody rest
  | '-' :: rest => (floatBody rest).map (fun q => -q)
  | rest => floatBody rest

/-- Whether pat is a leading segment of cs. -/
def listStartsWith : List Char → List Char → Bool
  | [], _ => true
  | _ :: _, [] => false
  | p :: ps, c :: cs => p = c && listStartsWith ps cs

/-- Fuelled engine for str.replace: replaces non-overlapping occurrences
of pat left to right. Structural in the fuel so the kernel can evaluate
it; fuel = length of the subject always suffices for nonempty pat. -/
def replaceFuel (pat rep : List Char) : Nat → List Char → List Char
  | 0, cs => cs
  | _, [] => []
  | fuel + 1, c :: cs =>
    if !pat.isEmpty && listStartsWith pat (c :: cs) then
      rep ++ replaceFuel pat rep fuel (List.drop (pat.length - 1) cs)
    else c :: replaceFuel pat rep fuel cs

/-- Python str.replace(pat, rep) for nonempty pat (the only use here is
removing the two-character unit marker). -/
def strReplace (s pat rep : String) : String :=
  String.mk (replaceFuel pat.data rep.data s.data.length s.data)

/-- _extract_temp_value from weather.py, over the modelled value domain.
A falsy argument (None, empty string, zero) returns None; a truthy
non-string raises AttributeError at .replace, which the except clause of
the source (ValueError, TypeError) does not catch; a nonempty string has
every occurrence of the unit marker removed and is parsed as a float,
with parse failure (ValueError, caught) degrading to None. -/
def _extract_temp_value (temp : Option JVal) : Except PyErr (Option ℚ) :=
  match temp with
  | none => .ok none
  | some v =>
    if pyTruthy v then
      match v with
      | .jstr s => .ok (pyFloat? (strReplace s "°C" ""))
      | _ => .error .attributeError
    else .ok none

/-- ASCII lowercase conversion of one character. -/
def charLower (c : Char) : Char :=
  if 'A' ≤ c ∧ c ≤ 'Z' then Char.ofNat (c.toNat + 32) else c

/-- ASCII lowercase conversion of a string (month names are ASCII). -/
def lowerStr (s : String) : String :=
  String.mk (s.data.map charLower)

/-- Word characters of the regex \w, ASCII subset (the day names served
by the source are ASCII). -/
def isWordChar (c : Char) : Bool :=
  c.isAlphanum || c = '_'

/-- re.match of the one pattern used in _parse_day_name_to_date,
a word, a space, digits, a space, a word, anchored at the start with
trailing characters allowed. Returns the two captured groups: the day
number and the month word. Greedy runs followed by a mandatory distinct
character admit no backtracking, so maximal runs are exact here. -/
def matchDayPattern (s : String) : Option (Nat × String) :=
  let cs := s.data
  let w1 := cs.takeWhile isWordChar
  let r1 := cs.dropWhile isWordChar
  if w1.isEmpty then none else
  match r1 with
  | ' ' :: r2 =>
    let ds := r2.takeWhile Char.isDigit
    let r3 := r2.dropWhile Char.isDigit
    if ds.isEmpty then none else
    match r3 with
    | ' ' :: r4 =>
      let w2 := r4.takeWhile isWordChar
      if w2.isEmpty then none else some (digitsVal ds, String.mk w2)
    | _ => none
  | _ => none

/-- month_map from _parse_day_name_to_date: abbreviation to number,
case-sensitive exact match. -/
def month_map : List (String × Nat) :=
  [("Jan", 1), ("Feb", 2), ("Mar", 3), ("Apr", 4), ("May", 5), ("Jun", 6),
   ("Jul", 7), ("Aug", 8), ("Sep", 9), ("Oct", 10), ("Nov", 11), ("Dec", 12)]

/-- Abbreviation lookup, none when the word is not a known abbreviation. -/
def monthAbbrev? (w : String) : Option Nat :=
  (month_map.find? (fun p => p.1 == w)).map (fun p => p.2)

/-- Full English month names matched by the strptime directive for the
month, which is case-insensitive. -/
def monthFullNames : List (String × Nat) :=
  [("january", 1), ("february", 2), ("march", 3), ("april", 4), ("may", 5),
   ("june", 6), ("july", 7), ("august", 8), ("september", 9), ("october", 10),
   ("november", 11), ("december", 12)]

/-- Case-insensitive full month name lookup. -/
def monthFull? (w : String) : Option Nat :=
  (monthFullNames.find? (fun p => p.1 == lowerStr w)).map (fun p => p.2)

/-- The middle branch of _parse_day_name_to_date on a nonempty string
that is neither Today nor Tomorrow: match the day pattern; map the month
word through month_map defaulting to the current month; roll the year
forward only for January or February when the current month is
numerically later; build the date, discarding it (ValueError, passed)
when the datetime constructor would reject it. -/
def patternDate (s : String) (now : Date) : Option String :=
  match matchDayPattern s with
  | none => none
  | some (day, month_str) =>
    let month := (monthAbbrev? month_str).getD now.month
    let year := if month < now.month ∧ (month = 1 ∨ month = 2)
                then now.year + 1 else now.year
    if validDate ⟨year, month, day⟩ then some (isoNoon ⟨year, month, day⟩)
    else none

/-- datetime.strptime(s, a day, a space, the full month name, a space,
the four-digit year). The strptime engine matches one or two digits for
the day with value 1 to 31, one or more whitespace characters for each
space in the format, the full month name case-insensitively, exactly
four digits for the year, requires the whole input consumed, and then
validates the date; none models ValueError. -/
def strptime_dBY (s : String) : Option Date :=
  let cs := s.data
  let ds := cs.takeWhile Char.isDigit
  let r1 := cs.dropWhile Char.isDigit
  let dayOk : Option Nat :=
    if ds.length = 1 then (if 1 ≤ digitsVal ds then some (digitsVal ds) else none)
    else if ds.length = 2 then
      (if 1 ≤ digitsVal ds ∧ digitsVal ds ≤ 31 then some (digitsVal ds) else none)
    else none
  match dayOk with
  | none => none
  | some day =>
    let ws1 := r1.takeWhile isPyWs
    let r2 := r1.dropWhile isPyWs
    if ws1.isEmpty then none else
    let mw := r2.takeWhile Char.isAlpha
    let r3 := r2.dropWhile Char.isAlpha
    match monthFull? (String.mk mw) with
    | none => none
    | some month =>
      let ws2 := r3.takeWhile isPyWs
      let r4 := r3.dropWhile isPyWs
      if ws2.isEmpty then none else
      let ys := r4.takeWhile Char.isDigit
      let r5 := r4.dropWhile Char.isDigit
      if ys.length = 4 ∧ r5.isEmpty then
        (if validDate ⟨digitsVal ys, month, day⟩
         then some ⟨digitsVal ys, month, day⟩ else none)
      else none

/-- The forecast-date branch of _parse_day_name_to_date: a falsy hint is
skipped, a truthy non-string raises TypeError inside strptime (outside
the except ValueError), a truthy string is parsed and an unparseable one
(ValueError, passed) is skipped. -/
def hintDate (v : Option JVal) : Except PyErr (Option String) :=
  match v with
  | none => .ok none
  | some w =>
    if pyTruthy w then
      match w with
      | .jstr s => .ok ((strptime_dBY s).map isoNoon)
      | _ => .error .typeError
    else .ok none

/-- Tail of _parse_day_name_to_date once the day-name branches have all
fallen through: try the forecast-date hint, then fall back to now. -/
def afterPattern (forecast_date : Option JVal) (now : Date) : Except PyErr String :=
  match hintDate forecast_date with
  | .error e => .error e
  | .ok (some r) => .ok r
  | .ok none => .ok (isoNoon now)

/-- _parse_day_name_to_date from weather.py, with the clock made
explicit. A non-string truthy day name reaches re.match and raises
TypeError; equality with Today or Tomorrow only succeeds for strings. -/
def _parse_day_name_to_date (day_name : Option JVal) (forecast_date : Option JVal)
    (now : Date) : Except PyErr String :=
  match day_name with
  | some (.jstr s) =>
    if s = "Today" then .ok (isoNoon now)
    else if s = "Tomorrow" then .ok (isoNoon (nextDay now))
    else if s = "" then afterPattern forecast_date now
    else
      match patternDate s now with
      | some r => .ok r
      | none => afterPattern forecast_date now
  | some w =>
    if pyTruthy w then .error .typeError
    else afterPattern forecast_date now
  | none => afterPattern forecast_date now

/-- TOOLTIP_CONDITION_MAP from const.py. -/
def TOOLTIP_CONDITION_MAP : List (String × String) :=
  [("Sunny", "sunny"),
   ("Sunny and hot", "sunny"),
   ("Mainly sunny", "partlycloudy"),
   ("Fine", "clear-night"),
   ("Sunny periods", "partlycloudy"),
   ("Cloudy, a few brighter spells", "partlycloudy"),
   ("Cloudy a.m. Sunny p.m.", "partlycloudy"),
   ("Sunny a.m. Cloudy p.m.", "partlycloudy"),
   ("Sunny a.m. Rain p.m.", "rainy"),
   ("Rain later", "rainy"),
   ("Rain a.m. Sunny p.m.", "rainy"),
   ("Rain", "rainy"),
   ("Fair", "partlycloudy"),
   ("Sunshine and showers", "rainy"),
   ("Sunshine and heavy shower", "rainy"),
   ("Cloudy with showers", "rainy"),
   ("Rain at times", "pouring"),
   ("Cloudy", "cloudy")]

/-- WIND_DIRECTION_MAP from const.py, bearings in degrees. -/
def WIND_DIRECTION_MAP : List (String × ℚ) :=
  [("N", 0), ("NNE", 22.5), ("NE", 45), ("ENE", 67.5),
   ("E", 90), ("ESE", 112.5), ("SE", 135), ("SSE", 157.5),
   ("S", 180), ("SSW", 202.5), ("SW", 225), ("WSW", 247.5),
   ("W", 270), ("WNW", 292.5), ("NW", 315), ("NNW", 337.5)]

/-- WIND_FORCE_TO_SPEED from const.py, in meters per second. -/
def WIND_FORCE_TO_SPEED : List (String × ℚ) :=
  [("F0", 0.0), ("F1", 0.5), ("F2", 2.0), ("F3", 4.0), ("F4", 6.0),
   ("F5", 9.0), ("F6", 12.0), ("F7", 15.0), ("F8", 19.0), ("F9", 23.0),
   ("F10", 27.0), ("F11", 31.0), ("F12", 34.0)]

/-- dict.get(v) on a string-keyed lookup table: an unhashable argument
(list or dict) raises TypeError, any other non-string is simply absent. -/
def pyMapGet (table : List (String × α)) : JVal → Except PyErr (Option α)
  | .jarr _ => .error .typeError
  | .jobj _ => .error .typeError
  | .jstr s => .ok ((table.find? (fun p => p.1 == s)).map (fun p => p.2))
  | .jnull => .ok none
  | .jint _ => .ok none

/-- Python int(x) on a stored value: ints pass through, strings are
parsed (ValueError on failure), None raises TypeError, containers raise
TypeError. -/
def pyInt : JVal → Except PyErr Int
  | .jint n => .ok n
  | .jstr s =>
    match pyIntOfString? s with
    | some n => .ok n
    | none => .error .valueError
  | .jnull => .error .typeError
  | .jarr _ => .error .typeError
  | .jobj _ => .error .typeError

/-- int(day_data.get(key, 0)): an absent key defaults to the int 0. -/
def rainProbVal (day_data : PyDict) (k : String) : Except PyErr Int :=
  match pyGet day_data k with
  | none => .ok 0
  | some v => pyInt v

/-- The shared shape of the conditional lookups in _build_forecast_data:
a falsy (or absent) field is skipped, a truthy one is looked up in the
given table, and the result is stored only when found. -/
def truthyLookup (table : List (String × α)) (g : Option JVal) :
    Except PyErr (Option α) :=
  match g with
  | none => .ok none
  | some v => if pyTruthy v then pyMapGet table v else .ok none

/-- The dayToolTip condition step of _build_forecast_data. -/
def condFromTooltipStep (day_data : PyDict) : Except PyErr (Option String) :=
  truthyLookup TOOLTIP_CONDITION_MAP (pyGet day_data "dayToolTip")

/-- The wind steps of _build_forecast_data. -/
def windLookupStep (day_data : PyDict) (key : String) (table : List (String × ℚ)) :
    Except PyErr (Option ℚ) :=
  truthyLookup table (pyGet day_data key)

/-- One normalized forecast day as assembled by _build_forecast_data.
Optional fields model keys that the source sets only conditionally; the
precipitation probability and the daytime flag are always set. -/
structure Forecast where
  datetime : String
  condition : Option String
  native_temperature : Option ℚ
  native_templow : Option ℚ
  precipitation_probability : Int
  wind_bearing : Option ℚ
  native_wind_speed : Option ℚ
  is_daytime : Bool
deriving DecidableEq, Repr

/-- _build_forecast_data from weather.py, with the clock made explicit.
Steps run in source order; any uncaught exception aborts the whole
record. Conditional field writes in the source become Option values. -/
def _build_forecast_data (day_data : PyDict) (now : Date)
    (forecast_date : Option JVal) : Except PyErr Forecast :=
  match _parse_day_name_to_date (pyGet day_data "dayName") forecast_date now with
  | .error e => .error e
  | .ok datetime_str =>
  match condFromTooltipStep day_data with
  | .error e => .error e
  | .ok cond =>
  match _extract_temp_value (pyGet day_data "maxTemp") with
  | .error e => .error e
  | .ok max_temp =>
  match _extract_temp_value (pyGet day_data "minTemp") with
  | .error e => .error e
  | .ok min_temp =>
  match rainProbVal day_data "rainProbMorning" with
  | .error e => .error e
  | .ok pm =>
  match rainProbVal day_data "rainProbAfternoon" with
  | .error e => .error e
  | .ok pa =>
  match rainProbVal day_data "rainProbEvening" with
  | .error e => .error e
  | .ok pe =>
  match windLookupStep day_data "windDirection" WIND_DIRECTION_MAP with
  | .error e => .error e
  | .ok bearing =>
  match windLookupStep day_data "windSpeed" WIND_FORCE_TO_SPEED with
  | .error e => .error e
  | .ok speed =>
    .ok { datetime := datetime_str
        , condition := cond
        , native_temperature := max_temp
        , native_templow := min_temp
        , precipitation_probability := max pm (max pa pe)
        , wind_bearing := bearing
        , native_wind_speed := speed
        , is_daytime := true }

/-- Attribute .get(key) on a stored value: only a dict has .get, any
other receiver raises AttributeError. -/
def pyObjGet (v : JVal) (k : String) : Except PyErr (Option JVal) :=
  match v with
  | .jobj kvs => .ok ((kvs.find? (fun p => p.1 == k)).map (fun p => p.2))
  | _ => .error .attributeError

/-- .get(key, default): a stored None is returned as-is; the default
only covers an absent key. -/
def pyObjGetD (v : JVal) (k : String) (dflt : JVal) : Except PyErr JVal :=
  match pyObjGet v k with
  | .error e => .error e
  | .ok o => .ok (o.getD dflt)

/-- Subscript [0] on a stored value: a list or string yields its first
element or IndexError when empty, a dict raises KeyError (the int key 0
is never among the string keys), None and ints are not subscriptable. -/
def pySub0 (v : JVal) : Except PyErr JVal :=
  match v with
  | .jarr [] => .error .indexError
  | .jarr (x :: _) => .ok x
  | .jstr s =>
    match s.data with
    | [] => .error .indexError
    | c :: _ => .ok (.jstr (String.mk [c]))
  | .jobj _ => .error .keyError
  | .jnull => .error .typeError
  | .jint _ => .error .typeError

/-- except (IndexError, KeyError): return None. Other exceptions keep
propagating. -/
def catchIdxKey (x : Except PyErr (Option α)) : Except PyErr (Option α) :=
  match x with
  | .error .indexError => .ok none
  | .error .keyError => .ok none
  | other => other

/-- Truthiness of the coordinator data slot (None before any success). -/
def dataTruthy : Option JVal → Bool
  | none => false
  | some v => pyTruthy v

/-- The per-period tooltip key chosen by JerseyWeather.condition. -/
def tooltipKeyFor (hour : Nat) : String :=
  if _get_time_of_day hour = "Morning" then "iconMorningToolTip"
  else if _get_time_of_day hour = "Afternoon" then "iconAfternoonToolTip"
  else "iconEveningToolTip"

/-- Body of the try block of JerseyWeather.condition. -/
def conditionTry (d : JVal) (hour : Nat) : Except PyErr (Option String) :=
  match pyObjGetD d "forecastDay" (.jarr []) with
  | .error e => .error e
  | .ok fd =>
  match pySub0 fd with
  | .error e => .error e
  | .ok day_data =>
  match pyObjGet day_data (tooltipKeyFor hour) with
  | .error e => .error e
  | .ok t0 =>
  match (match t0 with
         | some v => if pyTruthy v then Except.ok (some v)
                     else pyObjGet day_data "dayToolTip"
         | none => pyObjGet day_data "dayToolTip") with
  | .error e => .error e
  | .ok t1 =>
    match t1 with
    | none => .ok none
    | some v => pyMapGet TOOLTIP_CONDITION_MAP v

/-- JerseyWeather.condition, with coordinator data and hour explicit. -/
def condition (data : Option JVal) (hour : Nat) : Except PyErr (Option String) :=
  match data with
  | none => .ok none
  | some d =>
    if pyTruthy d then catchIdxKey (conditionTry d hour) else .ok none

/-- JerseyWeather.native_temperature, with coordinator data explicit. -/
def native_temperature (data : Option JVal) : Except PyErr (Option ℚ) :=
  match data with
  | none => .ok none
  | some d =>
    if pyTruthy d then
      match pyObjGet d "currentTemprature" with
      | .error e => .error e
      | .ok t => _extract_temp_value t
    else .ok none

/-- Body of the try block of JerseyWeather.wind_bearing. -/
def windBearingTry (d : JVal) : Except PyErr (Option ℚ) :=
  match pyObjGetD d "forecastDay" (.jarr []) with
  | .error e => .error e
  | .ok fd =>
  match pySub0 fd with
  | .error e => .error e
  | .ok day_data =>
  match pyObjGet day_data "windDirection" with
  | .error e => .error e
  | .ok wd =>
    match wd with
    | none => .ok none
    | some v => pyMapGet WIND_DIRECTION_MAP v

/-- JerseyWeather.wind_bearing, with coordinator data explicit. -/
def wind_bearing (data : Option JVal) : Except PyErr (Option ℚ) :=
  match data with
  | none => .ok none
  | some d =>
    if pyTruthy d then catchIdxKey (windBearingTry d) else .ok none

/-- The per-period wind-speed key chosen by JerseyWeather.native_wind_speed. -/
def windSpeedKeyFor (hour : Nat) : String :=
  if _get_time_of_day hour = "Morning" then "windspeedMphMorning"
  else if _get_time_of_day hour = "Afternoon" then "windspeedMphAfternoon"
  else "windspeedMphEvening"

/-- float(x) inside a try catching ValueError and TypeError, degrading
to None: strings parse or degrade, ints convert exactly, anything else
degrades. -/
def floatOrNone : JVal → Option ℚ
  | .jstr s => pyFloat? s
  | .jint n => some (n : ℚ)
  | _ => none

/-- Body of the try block of JerseyWeather.native_wind_speed. -/
def windSpeedTry (d : JVal) (hour : Nat) : Except PyErr (Option ℚ) :=
  match pyObjGetD d "forecastDay" (.jarr []) with
  | .error e => .error e
  | .ok fd =>
  match pySub0 fd with
  | .error e => .error e
  | .ok day_data =>
  match pyObjGet day_data (windSpeedKeyFor hour) with
  | .error e => .error e
  | .ok w0 =>
  match (match w0 with
         | some v => if pyTruthy v then Except.ok (some v)
                     else pyObjGet day_data "windSpeedMPH"
         | none => pyObjGet day_data "windSpeedMPH") with
  | .error e => .error e
  | .ok w1 =>
    match w1 with
    | none => .ok none
    | some v => if pyTruthy v then .ok (floatOrNone v) else .ok none

/-- JerseyWeather.native_wind_speed, with data and hour explicit. -/
def native_wind_speed (data : Option JVal) (hour : Nat) : Except PyErr (Option ℚ) :=
  match data with
  | none => .ok none
  | some d =>
    if pyTruthy d then catchIdxKey (windSpeedTry d hour) else .ok none

/-- The loop of _async_forecast_daily: each element must be a dict (any
other element fails at its first .get with AttributeError) and is run
through _build_forecast_data; the first exception aborts the loop. -/
def forecastLoop (days : List JVal) (now : Date) (fdate : Option JVal) :
    Except PyErr (List Forecast) :=
  match days with
  | [] => .ok []
  | dv :: rest =>
    match dv with
    | .jobj kvs =>
      match _build_forecast_data kvs now fdate with
      | .error e => .error e
      | .ok fc =>
        match forecastLoop rest now fdate with
        | .error e => .error e
        | .ok fcs => .ok (fc :: fcs)
    | _ => .error .attributeError

/-- JerseyWeather._async_forecast_daily, with data and clock explicit.
Falsy coordinator data or a falsy forecastDay sequence returns None
(not an empty list); iterating a truthy non-list either yields non-dict
elements (strings, dict keys) failing at .get, or is not iterable at
all (TypeError). -/
def _async_forecast_daily (data : Option JVal) (now : Date) :
    Except PyErr (Option (List Forecast)) :=
  match data with
  | none => .ok none
  | some d =>
    if pyTruthy d then
      match pyObjGetD d "forecastDay" (.jarr []) with
      | .error e => .error e
      | .ok fd =>
        if pyTruthy fd then
          match pyObjGet d "forecastDate" with
          | .error e => .error e
          | .ok fdate =>
            match fd with
            | .jarr days =>
              match forecastLoop days now fdate with
              | .error e => .error e
              | .ok fcs => .ok (some fcs)
            | .jstr _ => .error .attributeError
            | .jobj _ => .error .attributeError
            | .jint _ => .error .typeError
            | .jnull => .error .typeError
        else .ok none
    else .ok none

/-- One observed outcome of the HTTP GET in __init__.py: either a
response arrives, carrying a status and a body that may or may not be
valid JSON, or the transport fails with an aiohttp.ClientError. -/
structure HttpResponse where
  status : Nat
  body : Option JVal

/-- The transport outcome fed to a poll cycle. -/
inductive FetchResult where
  | response : HttpResponse → FetchResult
  | networkError : FetchResult

/-- JerseyWeatherDataCoordinator._fetch_remote_data: a non-200 status
raises UpdateFailed, a body that is not valid JSON raises from
resp.json(), a transport error is logged and re-raised. -/
def _fetch_remote_data (f : FetchResult) : Except PyErr JVal :=
  match f with
  | .networkError => .error .clientError
  | .response r =>
    if r.status ≠ 200 then .error .updateFailedExc
    else
      match r.body with
      | some v => .ok v
      | none => .error .jsonDecodeError

/-- JerseyWeatherDataCoordinator._async_update_data: any exception from
the fetch is wrapped into UpdateFailed. -/
def _async_update_data (f : FetchResult) : Except PyErr JVal :=
  match _fetch_remote_data f with
  | .ok v => .ok v
  | .error _ => .error .updateFailedExc

/-- Modelled from the spec: the surrounding DataUpdateCoordinator of
Home Assistant (an external dependency, not part of this repository)
publishes the value returned by _async_update_data on success and, when
UpdateFailed is raised, keeps the previously published data and marks
the cycle as failed. The pair is (visible data, cycle succeeded). -/
def coordinatorStep (prev : Option JVal) (f : FetchResult) : Option JVal × Bool :=
  match _async_update_data f with
  | .ok v => (some v, true)
  | .error _ => (prev, false)

/-- The failure classification of a fetch outcome named by the claim:
non-success status, transport-level error, or a body that is not JSON. -/
def isFailedFetch : FetchResult → Bool
  | .networkError => true
  | .response r => (r.status ≠ 200 : Bool) || r.body.isNone

/-- Scalar values that are null or a string: the shapes a JSON feed of
string fields can put in a day record. -/
def isNullOrStr : JVal → Bool
  | .jnull => true
  | .jstr _ => true
  | _ => false

/-- An optional stored value that is absent, null, or a string. -/
def isStrOrNullOpt : Option JVal → Bool
  | none => true
  | some v => isNullOrStr v

/-- An optional stored value that is absent or an int-convertible
string: the shapes on which int(day_data.get(key, 0)) cannot raise for
a string-valued feed. -/
def isIntStrOrAbsent : Option JVal → Bool
  | none => true
  | some (.jstr s) => (pyIntOfString? s).isSome
  | some (.jint _) => true
  | some _ => false

/-- C4 (confirmed): for every hour h in 0..23 the time-of-day resolver
returns one of Morning, Afternoon, Evening, with Morning exactly on
[5,12), Afternoon exactly on [12,18), and Evening exactly on
[18,24) or [0,5); the three ranges therefore partition the 24 hours
with no overlap and no gap. -/
theorem claim_C4 (h : Nat) (hh : h < 24) :
    (_get_time_of_day h = "Morning" ∨ _get_time_of_day h = "Afternoon" ∨
      _get_time_of_day h = "Evening") ∧
    (_get_time_of_day h = "Morning" ↔ 5 ≤ h ∧ h < 12) ∧
    (_get_time_of_day h = "Afternoon" ↔ 12 ≤ h ∧ h < 18) ∧
    (_get_time_of_day h = "Evening" ↔ (18 ≤ h ∧ h < 24) ∨ h < 5) := by
  interval_cases h <;> exact ⟨by decide, by decide, by decide, by decide⟩

/-- C4 witness: hour 3 lies in the Evening wrap-around range. -/
theorem claim_C4_witness : _get_time_of_day 3 = "Evening" :=
  (claim_C4 3 (by decide)).2.2.2.mpr (Or.inr (by decide))

/-- C9 counterexample: at hour 0 the weather entity resolver returns
Evening while the sensor platform inline selection returns Morning, so
the two do not compute the same period for every hour. -/
theorem claim_C9_counterexample :
    _get_time_of_day 0 = "Evening" ∧ sensorPeriod 0 = "Morning" ∧
      _get_time_of_day 0 ≠ sensorPeriod 0 := by
  exact ⟨by decide, by decide, by decide⟩

/-- C9 (corrected): the weather entity resolver and the sensor platform
inline selection agree for every hour from 5 on, but on hours 0..4 the
weather entity resolves Evening while every per-period sensor selects
the Morning-suffixed source field. -/
theorem claim_C9 (h : Nat) :
    (5 ≤ h → _get_time_of_day h = sensorPeriod h) ∧
    (h < 5 → _get_time_of_day h = "Evening" ∧ sensorPeriod h = "Morning") := by
  constructor
  · intro h5
    unfold _get_time_of_day sensorPeriod
    split_ifs <;> first | rfl | omega
  · intro h5
    unfold _get_time_of_day sensorPeriod
    split_ifs <;> first | exact ⟨rfl, rfl⟩ | omega

/-- C9 witness: at hour 7 both selections agree. -/
theorem claim_C9_witness : _get_time_of_day 7 = sensorPeriod 7 :=
  (claim_C9 7).1 (by decide)

/-- C8 (confirmed): a submitted refresh interval below 5 is rejected
with a validation error naming the minimum, one above 1440 with one
naming the maximum, and in neither case is an options entry created;
every value in 5..1440 is accepted and stored unmodified. -/
theorem claim_C8 (n : Int) :
    (n < 5 → async_step_init n =
      .showForm "init" [("scan_interval", "Value must be at least 5")]) ∧
    (n > 1440 → async_step_init n =
      .showForm "init" [("scan_interval", "Value must be at most 1440")]) ∧
    (5 ≤ n → n ≤ 1440 → async_step_init n =
      .createEntry "" [("scan_interval", n)]) ∧
    ((n < 5 ∨ n > 1440) → ∀ t dta, async_step_init n ≠ .createEntry t dta) := by
  unfold async_step_init MIN_SCAN_INTERVAL MAX_SCAN_INTERVAL
  refine ⟨fun h1 => ?_, fun h2 => ?_, fun h3 h4 => ?_, fun h5 t dta => ?_⟩ <;>
    split_ifs <;> first | rfl | omega | simp

/-- C8 witness: 3 is rejected at the minimum, 2000 at the maximum, and
60 is stored unchanged. -/
theorem claim_C8_witness :
    async_step_init 3 =
      .showForm "init" [("scan_interval", "Value must be at least 5")] ∧
    async_step_init 2000 =
      .showForm "init" [("scan_interval", "Value must be at most 1440")] ∧
    async_step_init 60 = .createEntry "" [("scan_interval", 60)] :=
  ⟨(claim_C8 3).1 (by decide), (claim_C8 2000).2.1 (by decide),
   (claim_C8 60).2.2.1 (by decide) (by decide)⟩

/-- C7 (confirmed): every poll cycle whose fetch sees a non-success
status, a transport error, or a body that is not valid JSON surfaces
UpdateFailed, and the coordinator keeps the previously published
snapshot unchanged instead of clearing it. -/
theorem claim_C7 (prev : Option JVal) (f : FetchResult)
    (hf : isFailedFetch f = true) :
    _async_update_data f = .error .updateFailedExc ∧
      coordinatorStep prev f = (prev, false) := by
  cases f with
  | networkError => exact ⟨rfl, rfl⟩
  | response r =>
    by_cases hs : r.status = 200
    · have hb : r.body = none := by
        simp [isFailedFetch, hs] at hf
        exact hf
      simp [_async_update_data, _fetch_remote_data, coordinatorStep, hs, hb]
    · simp [_async_update_data, _fetch_remote_data, coordinatorStep, hs]

/-- C7 witness: a status 500 response surfaces UpdateFailed and the
stale snapshot stays visible. -/
theorem claim_C7_witness :
    _async_update_data (.response ⟨500, some (.jobj [("currentTemprature", .jstr "18°C")])⟩) =
      .error .updateFailedExc ∧
    coordinatorStep (some (.jobj [("currentTemprature", .jstr "17°C")]))
        (.response ⟨500, some (.jobj [("currentTemprature", .jstr "18°C")])⟩) =
      (some (.jobj [("currentTemprature", .jstr "17°C")]), false) :=
  claim_C7 _ _ (by rfl)

/-- C6 counterexample: the string with a leading unit marker has no
trailing marker, so under the claimed trailing-strip reading the float
parse of the unchanged string fails and null is predicted, yet the code
returns 24 because it removes the marker everywhere. -/
theorem claim_C6_counterexample :
    pyFloat? "°C24" = none ∧
      _extract_temp_value (some (.jstr "°C24")) = .ok (some 24) := ⟨rfl, rfl⟩

/-- C6 (corrected): the temperature parser removes every occurrence of
the degree-Celsius marker anywhere in the string (not only a trailing
one) and parses the remainder as a float, returning null on empty input
or parse failure and never throwing on a string or null input; the
quoted examples hold. -/
theorem claim_C6 (s : String) (hs : s ≠ "") :
    _extract_temp_value (some (.jstr s)) = .ok (pyFloat? (strReplace s "°C" "")) ∧
    _extract_temp_value none = .ok none ∧
    _extract_temp_value (some .jnull) = .ok none ∧
    _extract_temp_value (some (.jstr "24°C")) = .ok (some 24) ∧
    _extract_temp_value (some (.jstr "")) = .ok none ∧
    _extract_temp_value (some (.jstr "abc")) = .ok none := by
  refine ⟨?_, rfl, rfl, rfl, rfl, rfl⟩
  simp [_extract_temp_value, pyTruthy, hs]

/-- C6 witness: the theorem applied to the canonical example input. -/
theorem claim_C6_witness :
    _extract_temp_value (some (.jstr "24°C")) =
      .ok (pyFloat? (strReplace "24°C" "°C" "")) :=
  (claim_C6 "24°C" (by decide)).1

/-- C10 (confirmed): the temperature parser removes every occurrence of
the unit-marker substring anywhere in the string before parsing the
float, so a leading marker and an interior marker both still parse:
both quoted inputs yield 24 rather than null. -/
theorem claim_C10 (s : String) (hs : s ≠ "") :
    _extract_temp_value (some (.jstr s)) = .ok (pyFloat? (strReplace s "°C" "")) ∧
    _extract_temp_value (some (.jstr "°C24")) = .ok (some 24) ∧
    _extract_temp_value (some (.jstr "2°C4")) = .ok (some 24) := by
  refine ⟨?_, rfl, rfl⟩
  simp [_extract_temp_value, pyTruthy, hs]

/-- C10 witness: the theorem applied to the interior-marker example. -/
theorem claim_C10_witness :
    _extract_temp_value (some (.jstr "2°C4")) =
      .ok (pyFloat? (strReplace "2°C4" "°C" "")) :=
  (claim_C10 "2°C4" (by decide)).1

/-- A truthy string hint that strptime parses resolves the date branch. -/
theorem afterPattern_hint (h : String) (dt : Date) (now : Date)
    (hsp : strptime_dBY h = some dt) :
    afterPattern (some (.jstr h)) now = .ok (isoNoon dt) := by
  have hne : h ≠ "" := by
    intro he
    subst he
    rw [show strptime_dBY "" = none from rfl] at hsp
    cases hsp
  have ht : pyTruthy (JVal.jstr h) = true := by simp [pyTruthy, hne]
  simp [afterPattern, hintDate, ht, hsp]

/-- When the hint is absent or unparseable the fallback is now. -/
theorem afterPattern_fallback (hint : Option String) (now : Date)
    (hn : ∀ h, hint = some h → strptime_dBY h = none) :
    afterPattern (hint.map JVal.jstr) now = .ok (isoNoon now) := by
  cases hint with
  | none => rfl
  | some h =>
    have hsp := hn h rfl
    show afterPattern (some (.jstr h)) now = .ok (isoNoon now)
    by_cases hne : h = ""
    · subst hne; rfl
    · have ht : pyTruthy (JVal.jstr h) = true := by simp [pyTruthy, hne]
      simp [afterPattern, hintDate, ht, hsp]

/-- The hint branch never raises on an optional string hint. -/
theorem afterPattern_total (hint : Option String) (now : Date) :
    ∃ r, afterPattern (hint.map JVal.jstr) now = .ok r := by
  cases hint with
  | none => exact ⟨_, rfl⟩
  | some h =>
    by_cases hsp : strptime_dBY h = none
    · exact ⟨_, afterPattern_fallback (some h) now (fun h2 hh => by cases hh; exact hsp)⟩
    · obtain ⟨dt, hdt⟩ := Option.ne_none_iff_exists'.mp hsp
      exact ⟨_, afterPattern_hint h dt now hdt⟩

/-- C3 (confirmed): date resolution follows the claimed priority order:
Today resolves to the current date, Tomorrow to the current date plus
one day, then a matched weekday-day-month pattern resolves against the
current year rolling to the next year only for January or February when
the current month is numerically later, then a parseable
day-month-year hint resolves, and otherwise the current date is used;
every resolved date is an ISO timestamp fixed at noon, and resolution
never raises for a string day name and optional string hint. -/
theorem claim_C3 (dn : String) (hint : Option String) (now : Date) :
    (dn = "Today" →
      _parse_day_name_to_date (some (.jstr dn)) (hint.map JVal.jstr) now =
        .ok (isoNoon now)) ∧
    (dn = "Tomorrow" →
      _parse_day_name_to_date (some (.jstr dn)) (hint.map JVal.jstr) now =
        .ok (isoNoon (nextDay now))) ∧
    (∀ d mstr month, dn ≠ "Today" → dn ≠ "Tomorrow" →
      matchDayPattern dn = some (d, mstr) → monthAbbrev? mstr = some month →
      validDate ⟨if month < now.month ∧ (month = 1 ∨ month = 2)
                 then now.year + 1 else now.year, month, d⟩ →
      _parse_day_name_to_date (some (.jstr dn)) (hint.map JVal.jstr) now =
        .ok (isoNoon ⟨if month < now.month ∧ (month = 1 ∨ month = 2)
                      then now.year + 1 else now.year, month, d⟩)) ∧
    (∀ h dt, dn ≠ "Today" → dn ≠ "Tomorrow" → patternDate dn now = none →
      hint = some h → strptime_dBY h = some dt →
      _parse_day_name_to_date (some (.jstr dn)) (hint.map JVal.jstr) now =
        .ok (isoNoon dt)) ∧
    (dn ≠ "Today" → dn ≠ "Tomorrow" → patternDate dn now = none →
      (∀ h, hint = some h → strptime_dBY h = none) →
      _parse_day_name_to_date (some (.jstr dn)) (hint.map JVal.jstr) now =
        .ok (isoNoon now)) ∧
    (∃ r, _parse_day_name_to_date (some (.jstr dn)) (hint.map JVal.jstr) now =
      .ok r) := by
  refine ⟨?_, ?_, ?_, ?_, ?_, ?_⟩
  · intro h1
    subst h1
    rfl
  · intro h2
    subst h2
    rfl
  · intro d mstr month h1 h2 h3 h4 h5
    have hdn : dn ≠ "" := by
      intro he
      subst he
      rw [show matchDayPattern "" = none from rfl] at h3
      cases h3
    have hpd : patternDate dn now =
        some (isoNoon ⟨if month < now.month ∧ (month = 1 ∨ month = 2)
                       then now.year + 1 else now.year, month, d⟩) := by
      simp only [patternDate, h3, h4, Option.getD_some]
      rw [if_pos h5]
    simp only [_parse_day_name_to_date]
    rw [if_neg h1, if_neg h2, if_neg hdn, hpd]
  · intro h dt h1 h2 h3 h4 h5
    subst h4
    simp only [_parse_day_name_to_date]
    by_cases hdn : dn = ""
    · rw [if_neg h1, if_neg h2, if_pos hdn]
      exact afterPattern_hint h dt now h5
    · rw [if_neg h1, if_neg h2, if_neg hdn, h3]
      exact afterPattern_hint h dt now h5
  · intro h1 h2 h3 h4
    simp only [_parse_day_name_to_date]
    by_cases hdn : dn = ""
    · rw [if_neg h1, if_neg h2, if_pos hdn]
      exact afterPattern_fallback hint now h4
    · rw [if_neg h1, if_neg h2, if_neg hdn, h3]
      exact afterPattern_fallback hint now h4
  · by_cases h1 : dn = "Today"
    · subst h1; exact ⟨_, rfl⟩
    by_cases h2 : dn = "Tomorrow"
    · subst h2; exact ⟨_, rfl⟩
    by_cases h0 : dn = ""
    · subst h0
      obtain ⟨r, hr⟩ := afterPattern_total hint now
      exact ⟨r, hr⟩
    simp only [_parse_day_name_to_date]
    rw [if_neg h1, if_neg h2, if_neg h0]
    cases hp : patternDate dn now with
    | some r => exact ⟨_, rfl⟩
    | none => exact afterPattern_total hint now

/-- C3 witness: the pattern branch on a June date resolves a July day
name to July of the current year at noon. -/
theorem claim_C3_witness :
    _parse_day_name_to_date (some (.jstr "Sat 12 Jul")) none ⟨2025, 6, 15⟩ =
      .ok "2025-07-12T12:00:00" := by
  have h := (claim_C3 "Sat 12 Jul" none ⟨2025, 6, 15⟩).2.2.1 12 "Jul" 7
    (by decide) (by decide) (by decide) (by decide) (by decide)
  rw [show (Option.map JVal.jstr none) = none from rfl] at h
  rw [h]
  rfl

/-- A value found by pyGet inherits the shape constraint of the record. -/
theorem pyGet_shape (d : PyDict) (k : String) (v : JVal)
    (hv : ∀ p ∈ d, isNullOrStr p.2 = true) (hg : pyGet d k = some v) :
    isNullOrStr v = true := by
  unfold pyGet at hg
  cases hf : d.find? (fun p => p.1 == k) with
  | none => rw [hf] at hg; cases hg
  | some p =>
    rw [hf] at hg
    simp only [Option.map_some'] at hg
    injection hg with h
    rw [← h]
    exact hv p (List.mem_of_find?_eq_some hf)

/-- Option form of the shape transfer. -/
theorem pyGetOpt_shape (d : PyDict) (k : String)
    (hv : ∀ p ∈ d, isNullOrStr p.2 = true) :
    isStrOrNullOpt (pyGet d k) = true := by
  cases hg : pyGet d k with
  | none => rfl
  | some v => exact pyGet_shape d k v hv hg

/-- The hint branch of _parse_day_name_to_date never raises on an
absent, null, or string hint (stored values of a string-valued feed). -/
theorem afterPattern_total_jv (fdate : Option JVal) (now : Date)
    (h2 : isStrOrNullOpt fdate = true) :
    ∃ r, afterPattern fdate now = .ok r := by
  cases fdate with
  | none => exact ⟨_, rfl⟩
  | some w =>
    cases w with
    | jnull => exact ⟨_, rfl⟩
    | jstr s =>
      have h := afterPattern_total (some s) now
      simpa using h
    | jint n => simp [isStrOrNullOpt, isNullOrStr] at h2
    | jarr xs => simp [isStrOrNullOpt, isNullOrStr] at h2
    | jobj kvs => simp [isStrOrNullOpt, isNullOrStr] at h2

/-- Date resolution never raises when the day name and the hint are
absent, null, or strings. -/
theorem parse_day_total (dn fdate : Option JVal) (now : Date)
    (h1 : isStrOrNullOpt dn = true) (h2 : isStrOrNullOpt fdate = true) :
    ∃ r, _parse_day_name_to_date dn fdate now = .ok r := by
  cases dn with
  | none => exact afterPattern_total_jv fdate now h2
  | some w =>
    cases w with
    | jnull => exact afterPattern_total_jv fdate now h2
    | jstr s =>
      simp only [_parse_day_name_to_date]
      by_cases hT : s = "Today"
      · rw [if_pos hT]; exact ⟨_, rfl⟩
      by_cases hM : s = "Tomorrow"
      · rw [if_neg hT, if_pos hM]; exact ⟨_, rfl⟩
      by_cases hE : s = ""
      · rw [if_neg hT, if_neg hM, if_pos hE]
        exact afterPattern_total_jv fdate now h2
      rw [if_neg hT, if_neg hM, if_neg hE]
      cases hp : patternDate s now with
      | some r => exact ⟨_, rfl⟩
      | none => exact afterPattern_total_jv fdate now h2
    | jint n => simp [isStrOrNullOpt, isNullOrStr] at h1
    | jarr xs => simp [isStrOrNullOpt, isNullOrStr] at h1
    | jobj kvs => simp [isStrOrNullOpt, isNullOrStr] at h1

/-- A guarded table lookup never raises on absent, null, or string
values. -/
theorem truthyLookup_total (table : List (String × α)) (g : Option JVal)
    (hns : isStrOrNullOpt g = true) :
    ∃ r, truthyLookup table g = .ok r := by
  cases g with
  | none => exact ⟨_, rfl⟩
  | some w =>
    cases w with
    | jnull => exact ⟨_, rfl⟩
    | jstr s =>
      cases hps : pyTruthy (JVal.jstr s) with
      | false => exact ⟨none, by simp [truthyLookup, hps]⟩
      | true =>
        exact ⟨(table.find? (fun p => p.1 == s)).map (fun p => p.2),
          by simp [truthyLookup, hps, pyMapGet]⟩
    | jint n => simp [isStrOrNullOpt, isNullOrStr] at hns
    | jarr xs => simp [isStrOrNullOpt, isNullOrStr] at hns
    | jobj kvs => simp [isStrOrNullOpt, isNullOrStr] at hns

/-- The temperature parser never raises on absent, null, or string
values. -/
theorem extract_total (v : Option JVal)
    (hns : isStrOrNullOpt v = true) :
    ∃ r, _extract_temp_value v = .ok r := by
  cases v with
  | none => exact ⟨_, rfl⟩
  | some w =>
    cases w with
    | jnull => exact ⟨_, rfl⟩
    | jstr s =>
      cases hps : pyTruthy (JVal.jstr s) with
      | false => exact ⟨none, by simp [_extract_temp_value, hps]⟩
      | true =>
        exact ⟨pyFloat? (strReplace s "°C" ""),
          by simp [_extract_temp_value, hps]⟩
    | jint n => simp [isStrOrNullOpt, isNullOrStr] at hns
    | jarr xs => simp [isStrOrNullOpt, isNullOrStr] at hns
    | jobj kvs => simp [isStrOrNullOpt, isNullOrStr] at hns

/-- The rain-probability step never raises when the stored value is
absent, an int, or an int-format string. -/
theorem rain_total (d : PyDict) (k : String)
    (hik : isIntStrOrAbsent (pyGet d k) = true) :
    ∃ n, rainProbVal d k = .ok n := by
  unfold rainProbVal
  cases hg : pyGet d k with
  | none => exact ⟨0, rfl⟩
  | some v =>
    rw [hg] at hik
    cases v with
    | jstr s =>
      simp only [isIntStrOrAbsent] at hik
      obtain ⟨n, hn⟩ := Option.isSome_iff_exists.mp hik
      exact ⟨n, by simp [pyInt, hn]⟩
    | jint n => exact ⟨n, rfl⟩
    | jnull => simp [isIntStrOrAbsent] at hik
    | jarr xs => simp [isIntStrOrAbsent] at hik
    | jobj kvs => simp [isIntStrOrAbsent] at hik

/-- C2 counterexample: the day record whose only field is a rain
probability holding a non-numeric string makes _build_forecast_data
raise ValueError from int, so the normalizer is not total: the failure
aborts the record instead of degrading to 0. -/
theorem claim_C2_counterexample :
    _build_forecast_data [("rainProbMorning", .jstr "abc")] ⟨2025, 6, 15⟩ none =
      .error .valueError := rfl

/-- C2 (corrected): the normalizer returns a record without raising,
with every individual field failure degrading to an omitted field or 0,
for every day record whose present values are nulls or strings and
whose rain-probability fields, when present, are ints or int-format
strings; outside that domain it can abort, for example ValueError on a
non-numeric rain-probability string. -/
theorem claim_C2 (d : PyDict) (now : Date) (fdate : Option JVal)
    (hvals : ∀ p ∈ d, isNullOrStr p.2 = true)
    (hfd : isStrOrNullOpt fdate = true)
    (hm : isIntStrOrAbsent (pyGet d "rainProbMorning") = true)
    (ha : isIntStrOrAbsent (pyGet d "rainProbAfternoon") = true)
    (he : isIntStrOrAbsent (pyGet d "rainProbEvening") = true) :
    ∃ fc, _build_forecast_data d now fdate = .ok fc := by
  obtain ⟨r1, h1⟩ := parse_day_total (pyGet d "dayName") fdate now
    (pyGetOpt_shape d "dayName" hvals) hfd
  obtain ⟨r2, h2⟩ := truthyLookup_total TOOLTIP_CONDITION_MAP
    (pyGet d "dayToolTip") (pyGetOpt_shape d "dayToolTip" hvals)
  obtain ⟨r3, h3⟩ := extract_total (pyGet d "maxTemp")
    (pyGetOpt_shape d "maxTemp" hvals)
  obtain ⟨r4, h4⟩ := extract_total (pyGet d "minTemp")
    (pyGetOpt_shape d "minTemp" hvals)
  obtain ⟨r5, h5⟩ := rain_total d "rainProbMorning" hm
  obtain ⟨r6, h6⟩ := rain_total d "rainProbAfternoon" ha
  obtain ⟨r7, h7⟩ := rain_total d "rainProbEvening" he
  obtain ⟨r8, h8⟩ := truthyLookup_total WIND_DIRECTION_MAP
    (pyGet d "windDirection") (pyGetOpt_shape d "windDirection" hvals)
  obtain ⟨r9, h9⟩ := truthyLookup_total WIND_FORCE_TO_SPEED
    (pyGet d "windSpeed") (pyGetOpt_shape d "windSpeed" hvals)
  exact ⟨{ datetime := r1, condition := r2, native_temperature := r3,
           native_templow := r4,
           precipitation_probability := max r5 (max r6 r7),
           wind_bearing := r8, native_wind_speed := r9, is_daytime := true },
    by simp only [_build_forecast_data, condFromTooltipStep, windLookupStep,
      h1, h2, h3, h4, h5, h6, h7, h8, h9]⟩

/-- C2 witness: a thoroughly malformed but string-valued record (unknown
day name, unmapped tooltip, garbage temperature, null temperature,
unknown compass point, null wind force, null hint) still yields a
record. -/
theorem claim_C2_witness :
    (_build_forecast_data
      [("dayName", .jstr "NotADay"), ("dayToolTip", .jstr "UnknownText"),
       ("maxTemp", .jstr "garbage"), ("minTemp", .jnull),
       ("rainProbMorning", .jstr "10"), ("windDirection", .jstr "XX"),
       ("windSpeed", .jnull)] ⟨2025, 6, 15⟩ (some .jnull)).isOk = true := by
  obtain ⟨fc, hfc⟩ := claim_C2
    [("dayName", .jstr "NotADay"), ("dayToolTip", .jstr "UnknownText"),
     ("maxTemp", .jstr "garbage"), ("minTemp", .jnull),
     ("rainProbMorning", .jstr "10"), ("windDirection", .jstr "XX"),
     ("windSpeed", .jnull)] ⟨2025, 6, 15⟩ (some .jnull)
    (by decide) (by decide) (by decide) (by decide) (by decide)
  rw [hfc]
  rfl

/-- C1 counterexample: a day record whose only field is a rain
probability of 150 publishes precipProbabilityPct = 150, so the result
is not always an integer in 0..100; the out-of-range period value
passes through the max unclamped. -/
theorem claim_C1_counterexample :
    _build_forecast_data [("rainProbMorning", .jstr "150")] ⟨2025, 6, 15⟩ none =
      .ok { datetime := "2025-06-15T12:00:00", condition := none,
            native_temperature := none, native_templow := none,
            precipitation_probability := 150, wind_bearing := none,
            native_wind_speed := none, is_daytime := true } ∧
    ¬((150 : Int) ≤ 100) := ⟨rfl, by decide⟩

/-- C1 (corrected): whenever the normalizer returns a record, the
published precipProbabilityPct is exactly the maximum of the three
per-period values, each taken as 0 when missing and converted with the
int builtin when present (an unparseable value raises instead of
counting as 0, settled under C2); the result lies in 0..100 only when
every converted period value does, since out-of-range values pass
through; 10, 80, 30 yields 80 and an all-absent day yields 0. -/
theorem claim_C1 (d : PyDict) (now : Date) (fdate : Option JVal) (fc : Forecast)
    (m a e : Int)
    (hfc : _build_forecast_data d now fdate = .ok fc)
    (hm : rainProbVal d "rainProbMorning" = .ok m)
    (ha : rainProbVal d "rainProbAfternoon" = .ok a)
    (he : rainProbVal d "rainProbEvening" = .ok e) :
    fc.precipitation_probability = max m (max a e) ∧
    (0 ≤ m ∧ m ≤ 100 ∧ 0 ≤ a ∧ a ≤ 100 ∧ 0 ≤ e ∧ e ≤ 100 →
      0 ≤ fc.precipitation_probability ∧ fc.precipitation_probability ≤ 100) ∧
    Except.map Forecast.precipitation_probability
      (_build_forecast_data [] ⟨2025, 6, 15⟩ none) = .ok 0 := by
  have hp : fc.precipitation_probability = max m (max a e) := by
    unfold _build_forecast_data at hfc
    cases h1 : _parse_day_name_to_date (pyGet d "dayName") fdate now with
    | error e1 => simp [h1] at hfc
    | ok v1 =>
    simp only [h1] at hfc
    cases h2 : condFromTooltipStep d with
    | error e2 => simp [h2] at hfc
    | ok v2 =>
    simp only [h2] at hfc
    cases h3 : _extract_temp_value (pyGet d "maxTemp") with
    | error e3 => simp [h3] at hfc
    | ok v3 =>
    simp only [h3] at hfc
    cases h4 : _extract_temp_value (pyGet d "minTemp") with
    | error e4 => simp [h4] at hfc
    | ok v4 =>
    simp only [h4] at hfc
    simp only [hm, ha, he] at hfc
    cases h8 : windLookupStep d "windDirection" WIND_DIRECTION_MAP with
    | error e8 => simp [h8] at hfc
    | ok v8 =>
    simp only [h8] at hfc
    cases h9 : windLookupStep d "windSpeed" WIND_FORCE_TO_SPEED with
    | error e9 => simp [h9] at hfc
    | ok v9 =>
    simp only [h9] at hfc
    injection hfc with h
    subst h
    rfl
  refine ⟨hp, fun hb => ?_, rfl⟩
  obtain ⟨hm0, hm1, ha0, ha1, he0, he1⟩ := hb
  rw [hp]
  exact ⟨le_trans hm0 (le_max_left _ _), max_le hm1 (max_le ha1 he1)⟩

/-- C1 witness: the theorem applied to the record with period values
10, 80, 30, whose published probability is 80 and within range. -/
theorem claim_C1_witness :
    (Forecast.precipitation_probability
      { datetime := "2025-06-15T12:00:00", condition := none,
        native_temperature := none, native_templow := none,
        precipitation_probability := 80, wind_bearing := none,
        native_wind_speed := none, is_daytime := true }) =
      max 10 (max 80 30) ∧
    (0 : Int) ≤ 80 ∧ (80 : Int) ≤ 100 := by
  have h := claim_C1
    [("rainProbMorning", .jstr "10"), ("rainProbAfternoon", .jstr "80"),
     ("rainProbEvening", .jstr "30")] ⟨2025, 6, 15⟩ none
    { datetime := "2025-06-15T12:00:00", condition := none,
      native_temperature := none, native_templow := none,
      precipitation_probability := 80, wind_bearing := none,
      native_wind_speed := none, is_daytime := true }
    10 80 30 rfl rfl rfl rfl
  exact ⟨h.1, by decide, by decide⟩

/-- C5 counterexample: on a document with an empty forecastDay the
daily-forecast accessor returns null, not an empty forecast sequence. -/
theorem claim_C5_counterexample :
    _async_forecast_daily
      (some (.jobj [("currentTemprature", .jstr "18°C"), ("forecastDay", .jarr [])]))
      ⟨2025, 6, 15⟩ = .ok none ∧
    (Except.ok none : Except PyErr (Option (List Forecast))) ≠
      .ok (some []) := by
  refine ⟨rfl, ?_⟩
  intro h
  injection h with h2
  cases h2

/-- C5 (corrected): when the forecastDay sequence of the document is
empty, the daily-forecast accessor yields null rather than an empty
forecast sequence, every other current-value accessor yields null, the
current temperature is still derived from currentTemprature alone, and
no step raises. -/
theorem claim_C5 (kvs : List (String × JVal)) (now : Date) (hour : Nat)
    (hfd : pyGet kvs "forecastDay" = some (.jarr [])) :
    _async_forecast_daily (some (.jobj kvs)) now = .ok none ∧
    condition (some (.jobj kvs)) hour = .ok none ∧
    wind_bearing (some (.jobj kvs)) = .ok none ∧
    native_wind_speed (some (.jobj kvs)) hour = .ok none ∧
    native_temperature (some (.jobj kvs)) =
      _extract_temp_value (pyGet kvs "currentTemprature") := by
  have hne : kvs ≠ [] := by
    intro h
    subst h
    simp [pyGet] at hfd
  have ht : pyTruthy (JVal.jobj kvs) = true := by
    cases kvs with
    | nil => exact absurd rfl hne
    | cons p rest => rfl
  have hog : pyObjGet (JVal.jobj kvs) "forecastDay" = .ok (some (.jarr [])) := by
    simp only [pyObjGet]
    rw [show (kvs.find? (fun p => p.1 == "forecastDay")).map (fun p => p.2) =
          pyGet kvs "forecastDay" from rfl, hfd]
  have hogd : pyObjGetD (JVal.jobj kvs) "forecastDay" (.jarr []) = .ok (.jarr []) := by
    simp [pyObjGetD, hog]
  refine ⟨?_, ?_, ?_, ?_, ?_⟩
  · simp [_async_forecast_daily, ht, hogd, pyTruthy]
  · simp [condition, ht, conditionTry, hogd, pySub0, catchIdxKey]
  · simp [wind_bearing, ht, windBearingTry, hogd, pySub0, catchIdxKey]
  · simp [native_wind_speed, ht, windSpeedTry, hogd, pySub0, catchIdxKey]
  · simp [native_temperature, ht, pyObjGet, pyGet]

/-- C5 witness: the theorem applied to a two-field document with an
empty forecastDay. -/
theorem claim_C5_witness :
    _async_forecast_daily
      (some (.jobj [("currentTemprature", .jstr "18°C"), ("forecastDay", .jarr [])]))
      ⟨2025, 6, 15⟩ = .ok none ∧
    condition
      (some (.jobj [("currentTemprature", .jstr "18°C"), ("forecastDay", .jarr [])]))
      9 = .ok none := by
  have h := claim_C5
    [("currentTemprature", .jstr "18°C"), ("forecastDay", .jarr [])]
    ⟨2025, 6, 15⟩ 9 rfl
  exact ⟨h.1, h.2.1⟩
